import Mathlib

set_option linter.unusedVariables false

/-!
Shallow embedding of the `fmod-test-bed` crate: the wasm interop binding
(`src/wasmfmod.rs`) and the `AudioEngine` / `EventInstance` facade layer
(`src/lib.rs`).  The middleware itself is external; every binding call is
modelled as a function of the status code (and payload) the middleware
would answer with, so theorems quantify over all possible middleware
behaviours.
-/

namespace FmodBed

/-- Status-code taxonomy of `wasmfmod.rs` (`enum FMODResult`, repr(i32)).
`ErrUnknown` is the catch-all variant the binding invented for
forward compatibility. -/
inductive FMODResult where
  | Ok
  | ErrBadCommand
  | ErrChannelAlloc
  | ErrChannelStolen
  | ErrDMA
  | ErrDSPConnection
  | ErrDSPDontProcess
  | ErrDSPFormat
  | ErrDSPInUse
  | ErrDSPNotFound
  | ErrDSPPReserved
  | ErrDSPSilence
  | ErrDSPTtype
  | ErrFileBad
  | ErrFileCouldNotSeek
  | ErrFileDiskEjected
  | ErrFileEOF
  | ErrFileEndOfData
  | ErrFileNotFound
  | ErrFormat
  | ErrHeaderMismatch
  | ErrHTTP
  | ErrHTTPAccess
  | ErrHTTPProxyAuth
  | ErrHTTPServerError
  | ErrHTTPTimeout
  | ErrInitialization
  | ErrInitialized
  | ErrInternal
  | ErrInvalidFloat
  | ErrInvalidHandle
  | ErrInvalidParam
  | ErrInvalidPosition
  | ErrInvalidSpeaker
  | ErrInvalidSyncPOINT
  | ErrInvalidThread
  | ErrInvalidVector
  | ErrMaxAudible
  | ErrMemory
  | ErrMemoryCantPoint
  | ErrNeeds3D
  | ErrNeedsHardware
  | ErrNetConnect
  | ErrNetSocketError
  | ErrNetURL
  | ErrNetWouldBlock
  | ErrNotReady
  | ErrOutputAllocated
  | ErrOutputCreateBuffer
  | ErrOutputDriverCall
  | ErrOutputFormat
  | ErrOutputInit
  | ErrOutputNoDrivers
  | ErrPlugin
  | ErrPluginMissing
  | ErrPluginResource
  | ErrPluginVersion
  | ErrRecord
  | ErrReverbChannelGroup
  | ErrReverbInstance
  | ErrSubsounds
  | ErrSubsoundAllocated
  | ErrSubsoundCantMove
  | ErrTagNotFound
  | ErrTooManyChannels
  | ErrTruncated
  | ErrUnimplemented
  | ErrUnitialized
  | ErrUnsupported
  | ErrVersion
  | ErrEventAlreadyLoaded
  | ErrEventLiveUpdateBusy
  | ErrEventLiveUpdateMismatch
  | ErrEventLiveUpdateTimeout
  | ErrEventNotFound
  | ErrStudioUnitialized
  | ErrStudioNotLoaded
  | ErrInvalidString
  | ErrAlreadyLocked
  | ErrNotLocked
  | ErrRecordDisconnected
  | ErrTooManySamples
  | ErrUnknown
  deriving DecidableEq, Repr

/-- Numeric value of each `FMODResult` variant: the explicit `repr(i32)`
discriminants written in `wasmfmod.rs` (the `$code as i32` cast the
`err_fmod!` macro performs reads these). -/
def FMODResult.code : FMODResult → Int
  | .Ok => 0
  | .ErrBadCommand => 1
  | .ErrChannelAlloc => 2
  | .ErrChannelStolen => 3
  | .ErrDMA => 4
  | .ErrDSPConnection => 5
  | .ErrDSPDontProcess => 6
  | .ErrDSPFormat => 7
  | .ErrDSPInUse => 8
  | .ErrDSPNotFound => 9
  | .ErrDSPPReserved => 10
  | .ErrDSPSilence => 11
  | .ErrDSPTtype => 12
  | .ErrFileBad => 13
  | .ErrFileCouldNotSeek => 14
  | .ErrFileDiskEjected => 15
  | .ErrFileEOF => 16
  | .ErrFileEndOfData => 17
  | .ErrFileNotFound => 18
  | .ErrFormat => 19
  | .ErrHeaderMismatch => 20
  | .ErrHTTP => 21
  | .ErrHTTPAccess => 22
  | .ErrHTTPProxyAuth => 23
  | .ErrHTTPServerError => 24
  | .ErrHTTPTimeout => 25
  | .ErrInitialization => 26
  | .ErrInitialized => 27
  | .ErrInternal => 28
  | .ErrInvalidFloat => 29
  | .ErrInvalidHandle => 30
  | .ErrInvalidParam => 31
  | .ErrInvalidPosition => 32
  | .ErrInvalidSpeaker => 33
  | .ErrInvalidSyncPOINT => 34
  | .ErrInvalidThread => 35
  | .ErrInvalidVector => 36
  | .ErrMaxAudible => 37
  | .ErrMemory => 38
  | .ErrMemoryCantPoint => 39
  | .ErrNeeds3D => 40
  | .ErrNeedsHardware => 41
  | .ErrNetConnect => 42
  | .ErrNetSocketError => 43
  | .ErrNetURL => 44
  | .ErrNetWouldBlock => 45
  | .ErrNotReady => 46
  | .ErrOutputAllocated => 47
  | .ErrOutputCreateBuffer => 48
  | .ErrOutputDriverCall => 49
  | .ErrOutputFormat => 50
  | .ErrOutputInit => 51
  | .ErrOutputNoDrivers => 52
  | .ErrPlugin => 53
  | .ErrPluginMissing => 54
  | .ErrPluginResource => 55
  | .ErrPluginVersion => 56
  | .ErrRecord => 57
  | .ErrReverbChannelGroup => 58
  | .ErrReverbInstance => 59
  | .ErrSubsounds => 60
  | .ErrSubsoundAllocated => 61
  | .ErrSubsoundCantMove => 62
  | .ErrTagNotFound => 63
  | .ErrTooManyChannels => 64
  | .ErrTruncated => 65
  | .ErrUnimplemented => 66
  | .ErrUnitialized => 67
  | .ErrUnsupported => 68
  | .ErrVersion => 69
  | .ErrEventAlreadyLoaded => 70
  | .ErrEventLiveUpdateBusy => 71
  | .ErrEventLiveUpdateMismatch => 72
  | .ErrEventLiveUpdateTimeout => 73
  | .ErrEventNotFound => 74
  | .ErrStudioUnitialized => 75
  | .ErrStudioNotLoaded => 76
  | .ErrInvalidString => 77
  | .ErrAlreadyLocked => 78
  | .ErrNotLocked => 79
  | .ErrRecordDisconnected => 80
  | .ErrTooManySamples => 81
  | .ErrUnknown => 82

/-- The `impl From<i32> for FMODResult` conversion of `wasmfmod.rs`:
codes 0..=81 map to their named variant, everything else to `ErrUnknown`. -/
def FMODResult.fromI32 : Int → FMODResult
  | 0 => .Ok
  | 1 => .ErrBadCommand
  | 2 => .ErrChannelAlloc
  | 3 => .ErrChannelStolen
  | 4 => .ErrDMA
  | 5 => .ErrDSPConnection
  | 6 => .ErrDSPDontProcess
  | 7 => .ErrDSPFormat
  | 8 => .ErrDSPInUse
  | 9 => .ErrDSPNotFound
  | 10 => .ErrDSPPReserved
  | 11 => .ErrDSPSilence
  | 12 => .ErrDSPTtype
  | 13 => .ErrFileBad
  | 14 => .ErrFileCouldNotSeek
  | 15 => .ErrFileDiskEjected
  | 16 => .ErrFileEOF
  | 17 => .ErrFileEndOfData
  | 18 => .ErrFileNotFound
  | 19 => .ErrFormat
  | 20 => .ErrHeaderMismatch
  | 21 => .ErrHTTP
  | 22 => .ErrHTTPAccess
  | 23 => .ErrHTTPProxyAuth
  | 24 => .ErrHTTPServerError
  | 25 => .ErrHTTPTimeout
  | 26 => .ErrInitialization
  | 27 => .ErrInitialized
  | 28 => .ErrInternal
  | 29 => .ErrInvalidFloat
  | 30 => .ErrInvalidHandle
  | 31 => .ErrInvalidParam
  | 32 => .ErrInvalidPosition
  | 33 => .ErrInvalidSpeaker
  | 34 => .ErrInvalidSyncPOINT
  | 35 => .ErrInvalidThread
  | 36 => .ErrInvalidVector
  | 37 => .ErrMaxAudible
  | 38 => .ErrMemory
  | 39 => .ErrMemoryCantPoint
  | 40 => .ErrNeeds3D
  | 41 => .ErrNeedsHardware
  | 42 => .ErrNetConnect
  | 43 => .ErrNetSocketError
  | 44 => .ErrNetURL
  | 45 => .ErrNetWouldBlock
  | 46 => .ErrNotReady
  | 47 => .ErrOutputAllocated
  | 48 => .ErrOutputCreateBuffer
  | 49 => .ErrOutputDriverCall
  | 50 => .ErrOutputFormat
  | 51 => .ErrOutputInit
  | 52 => .ErrOutputNoDrivers
  | 53 => .ErrPlugin
  | 54 => .ErrPluginMissing
  | 55 => .ErrPluginResource
  | 56 => .ErrPluginVersion
  | 57 => .ErrRecord
  | 58 => .ErrReverbChannelGroup
  | 59 => .ErrReverbInstance
  | 60 => .ErrSubsounds
  | 61 => .ErrSubsoundAllocated
  | 62 => .ErrSubsoundCantMove
  | 63 => .ErrTagNotFound
  | 64 => .ErrTooManyChannels
  | 65 => .ErrTruncated
  | 66 => .ErrUnimplemented
  | 67 => .ErrUnitialized
  | 68 => .ErrUnsupported
  | 69 => .ErrVersion
  | 70 => .ErrEventAlreadyLoaded
  | 71 => .ErrEventLiveUpdateBusy
  | 72 => .ErrEventLiveUpdateMismatch
  | 73 => .ErrEventLiveUpdateTimeout
  | 74 => .ErrEventNotFound
  | 75 => .ErrStudioUnitialized
  | 76 => .ErrStudioNotLoaded
  | 77 => .ErrInvalidString
  | 78 => .ErrAlreadyLocked
  | 79 => .ErrNotLocked
  | 80 => .ErrRecordDisconnected
  | 81 => .ErrTooManySamples
  | _ => .ErrUnknown

/-- Error type of the binding (`enum Error` in `wasmfmod.rs`).  The code
paths modelled here only ever construct the `Fmod` variant (via the
`err_fmod!` macro), so only its payload is embedded. -/
structure FmodError where
  function : String
  code : Int
  message : String
  deriving DecidableEq, Repr

/-- The `err_fmod!` macro of `wasmfmod.rs`: builds an `Error::Fmod` with the
given function name, the numeric value of the `FMODResult` variant
(`$code as i32` reads the repr(i32) discriminant), and an empty message. -/
def errFmod (function : String) (code : FMODResult) : FmodError :=
  { function := function, code := code.code, message := "" }

/-- Common near-side destructuring of a status-only `JSResult` envelope, as
every binding method in `wasmfmod.rs` writes it:
`match FMODResult::from(result.0) { Ok => Ok(()), err => Err(err_fmod!(name, err)) }`.
The raw `i32` the boundary answered with is the `status` argument. -/
def jsCallStatus (name : String) (status : Int) : Except FmodError Unit :=
  match FMODResult.fromI32 status with
  | .Ok => .ok ()
  | err => .error (errFmod name err)

/-- Common near-side destructuring of a payload-carrying envelope
(the `create_js_result!` shapes): on `Ok` the payload is returned,
otherwise the status is wrapped exactly as in `jsCallStatus`. -/
def jsCallValue {α : Type} (name : String) (status : Int) (value : α) :
    Except FmodError α :=
  match FMODResult.fromI32 status with
  | .Ok => .ok value
  | err => .error (errFmod name err)

/-- Model of `glam::Vec2` (an f32 pair).  The crate only stores and copies
these coordinates, never computes with them, so an exact numeric type is a
faithful stand-in for the f32 payload. -/
structure Vec2 where
  x : Rat
  y : Rat
  deriving DecidableEq, Repr

def Vec2.zero : Vec2 := ⟨0, 0⟩

/-- The `Vector` struct of `wasmfmod.rs` (x, y, z f32 fields). -/
structure FMODVector where
  x : Rat
  y : Rat
  z : Rat
  deriving DecidableEq, Repr

/-- The `Attributes3d` struct of `wasmfmod.rs`. -/
structure Attributes3d where
  position : FMODVector
  velocity : FMODVector
  forward : FMODVector
  up : FMODVector
  deriving DecidableEq, Repr

/-- The `PlaybackState` enum of `wasmfmod.rs` (repr(i32), 0..=4). -/
inductive PlaybackState where
  | Playing
  | Sustaining
  | Stopped
  | Starting
  | Stopping
  deriving DecidableEq, Repr

/-- Explicit repr(i32) discriminants of `PlaybackState` in `wasmfmod.rs`. -/
def PlaybackState.code : PlaybackState → Int
  | .Playing => 0
  | .Sustaining => 1
  | .Stopped => 2
  | .Starting => 3
  | .Stopping => 4

/-- The `EventProperty` enum of `wasmfmod.rs` (repr(i32), 0..=6). -/
inductive EventProperty where
  | ChannelPriority
  | ScheduleDelay
  | ScheduleLookahead
  | MinimumDistance
  | MaximumDistance
  | Cooldown
  | Max
  deriving DecidableEq, Repr

/-- Explicit repr(i32) discriminants of `EventProperty` in `wasmfmod.rs`. -/
def EventProperty.code : EventProperty → Int
  | .ChannelPriority => 0
  | .ScheduleDelay => 1
  | .ScheduleLookahead => 2
  | .MinimumDistance => 3
  | .MaximumDistance => 4
  | .Cooldown => 5
  | .Max => 6

/-- The `StopMode` enum of `wasmfmod.rs` (repr(i32), 0..=1). -/
inductive StopMode where
  | AllowFadeout
  | Immediate
  deriving DecidableEq, Repr

/-- Explicit repr(i32) discriminants of `StopMode` in `wasmfmod.rs`. -/
def StopMode.code : StopMode → Int
  | .AllowFadeout => 0
  | .Immediate => 1

/-! Bit-flag constants redeclared by `wasmfmod.rs` (`bitflags!` block),
as u32 values. -/

def Init_NORMAL : Nat := 0x00000000
def Init_STREAM_FROM_UPDATE : Nat := 0x00000001
def Init_MIX_FROM_UPDATE : Nat := 0x00000002
def Init_RIGHTHANDED_3D : Nat := 0x00000004
def Init_CLIP_OUTPUT : Nat := 0x00000008
def Init_CHANNEL_LOWPASS : Nat := 0x00000100
def Init_CHANNEL_DISTANCEFILTER : Nat := 0x00000200
def Init_PROFILE_ENABLE : Nat := 0x00010000
def Init_VOL0_BECOMES_VIRTUAL : Nat := 0x00020000
def Init_GEOMETRY_USECLOSEST : Nat := 0x00040000
def Init_PREFER_DOLBY_DOWNMIX : Nat := 0x00080000
def Init_THREAD_UNSAFE : Nat := 0x00100000
def Init_PROFILE_METER_ALL : Nat := 0x00200000
def Init_MEMORY_TRACKING : Nat := 0x00400000

def LoadBank_NORMAL : Nat := 0x00000000
def LoadBank_NONBLOCKING : Nat := 0x00000001
def LoadBank_DECOMPRESS_SAMPLES : Nat := 0x00000002
def LoadBank_UNENCRYPTED : Nat := 0x00000004

def StudioInit_NORMAL : Nat := 0x00000000
def StudioInit_LIVEUPDATE : Nat := 0x00000001
def StudioInit_ALLOW_MISSING_PLUGINS : Nat := 0x00000002
def StudioInit_SYNCHRONOUS_UPDATE : Nat := 0x00000004
def StudioInit_DEFERRED_CALLBACKS : Nat := 0x00000008
def StudioInit_LOAD_FROM_UPDATE : Nat := 0x00000010
def StudioInit_MEMORY_TRACKING : Nat := 0x00000020

/-! Oracle types.  The middleware behind the boundary is external: each
binding call is modelled as a function of the envelope the boundary would
answer with.  A bank buffer is identified with the boundary's complete
reaction to loading and enumerating it. -/

/-- Boundary answer for one `Studio_EventDescription_GetPath` call:
a status and the path string carried on success. -/
structure PathResponse where
  status : Int
  path : String
  deriving DecidableEq, Repr

/-- Boundary reaction to one bank buffer: the statuses answered to
`LoadBankMemory`, `GetEventCount` and `GetEventList`, the reported count,
and the per-descriptor `GetPath` answers. -/
structure BankOracle where
  loadStatus : Int
  countStatus : Int
  count : Int
  listStatus : Int
  events : List PathResponse
  deriving DecidableEq, Repr

namespace Studio

/-- Embeds `Studio::create` (`Studio_System_Create` envelope; the opaque
handle payload carries no near-side structure). -/
def create (status : Int) : Except FmodError Unit :=
  jsCallValue "Studio_System_Create" status ()

/-- Embeds `Studio::initialize` (note the near-side arguments that are
forwarded across the boundary: channel budget and the two flag words). -/
def initialize_system (status : Int) (max_channels : Int)
    (studio_flags : Nat) (flags : Nat) : Except FmodError Unit :=
  jsCallStatus "Studio_System_Initialize" status

/-- Embeds `Studio::load_bank_memory`: on `Ok` the bank handle is returned
(identified here with the buffer's oracle). -/
def load_bank_memory (b : BankOracle) (flags : Nat) : Except FmodError BankOracle :=
  jsCallValue "Studio_System_LoadBankMemory" b.loadStatus b

/-- Embeds `Studio::unload_all`. -/
def unload_all (status : Int) : Except FmodError Unit :=
  jsCallStatus "Studio_System_UnloadAll" status

/-- Embeds `Studio::get_event`. -/
def get_event (status : Int) (path_or_id : String) : Except FmodError Unit :=
  jsCallValue "Studio_System_GetEvent" status ()

/-- Embeds `Studio::get_bus`. -/
def get_bus (status : Int) (path_or_id : String) : Except FmodError Unit :=
  jsCallValue "Studio_System_GetBus" status ()

/-- Embeds `Studio::set_parameter_by_name`. -/
def set_parameter_by_name (status : Int) (name : String) (value : Rat)
    (ignore_seek_speed : Bool) : Except FmodError Unit :=
  jsCallStatus "Studio_System_SetParameterByName" status

/-- Embeds `Studio::set_listener_attributes`.  The error label in the
source is the string `"Studio_System_Update"`, not the name of the called
binding function; this definition reproduces that label verbatim. -/
def set_listener_attributes (status : Int) (index : Int)
    (attributes : Attributes3d) (attenuation_position : Option FMODVector) :
    Except FmodError Unit :=
  match FMODResult.fromI32 status with
  | .Ok => .ok ()
  | err => .error (errFmod "Studio_System_Update" err)

/-- Embeds `Studio::update`. -/
def update (status : Int) : Except FmodError Unit :=
  jsCallStatus "Studio_System_Update" status

end Studio

namespace Bank

/-- Embeds `Bank::get_event_list` (the capacity argument is forwarded to the
boundary; the descriptor list is whatever the boundary answers). -/
def get_event_list (b : BankOracle) (capacity : Int) :
    Except FmodError (List PathResponse) :=
  jsCallValue "Studio_Bank_GetEventList" b.listStatus b.events

/-- Embeds `Bank::get_event_count`. -/
def get_event_count (b : BankOracle) : Except FmodError Int :=
  jsCallValue "Studio_Bank_GetEventCount" b.countStatus b.count

end Bank

namespace EventDescription

/-- Embeds `EventDescription::get_path` (oracle: one `PathResponse`). -/
def get_path (d : PathResponse) : Except FmodError String :=
  jsCallValue "Studio_EventDescription_GetPath" d.status d.path

/-- Embeds `EventDescription::create_instance`. -/
def create_instance (status : Int) : Except FmodError Unit :=
  jsCallValue "Studio_EventDescription_CreateInstance" status ()

/-- Embeds `EventDescription::get_instance_count`. -/
def get_instance_count (status : Int) (count : Int) : Except FmodError Int :=
  jsCallValue "Studio_EventDescription_GetInstanceCount" status count

end EventDescription

namespace WasmEventInstance

/-- Embeds the binding-level `EventInstance::start`. -/
def start (status : Int) : Except FmodError Unit :=
  jsCallStatus "Studio_EventInstance_Start" status

/-- Embeds the binding-level `EventInstance::release`. -/
def release (status : Int) : Except FmodError Unit :=
  jsCallStatus "Studio_EventInstance_Release" status

/-- Embeds the binding-level `EventInstance::set_3d_attributes`. -/
def set_3d_attributes (status : Int) (attributes : Attributes3d) :
    Except FmodError Unit :=
  jsCallStatus "Studio_EventInstance_Set3DAttributes" status

/-- Embeds the binding-level `EventInstance::set_pitch`. -/
def set_pitch (status : Int) (pitch : Rat) : Except FmodError Unit :=
  jsCallStatus "Studio_EventInstance_SetPitch" status

/-- Embeds the binding-level `EventInstance::set_timeline_position`. -/
def set_timeline_position (status : Int) (position : Int) :
    Except FmodError Unit :=
  jsCallStatus "Studio_EventInstance_SetTimelinePosition" status

/-- Embeds the binding-level `EventInstance::get_timeline_position`
(oracle: the i32 the boundary reports). -/
def get_timeline_position (status : Int) (stored : Int) :
    Except FmodError Int :=
  jsCallValue "Studio_EventInstance_GetTimelinePosition" status stored

/-- Embeds the binding-level `EventInstance::get_playback_state`.  On `Ok`
the source re-matches the boundary-supplied enum value case by case; the
error label in the source is the string `"Studio_EventInstance_GetPitch"`,
not the name of the called binding function, reproduced verbatim here. -/
def get_playback_state (status : Int) (state : PlaybackState) :
    Except FmodError PlaybackState :=
  match FMODResult.fromI32 status with
  | .Ok => .ok (match state with
      | .Playing => .Playing
      | .Sustaining => .Sustaining
      | .Stopped => .Stopped
      | .Starting => .Starting
      | .Stopping => .Stopping)
  | err => .error (errFmod "Studio_EventInstance_GetPitch" err)

end WasmEventInstance

namespace Bus

/-- Embeds `Bus::set_mute`: the boundary call returns no status and the
method is infallible (`Ok(())` unconditionally). -/
def set_mute (mute : Bool) : Except Unit Unit :=
  .ok ()

end Bus

/-! Facade layer (`src/lib.rs`).  Operations that can `panic!` (via
`expect`, `unwrap` or `debug_assert!`) are given a three-way outcome. -/

/-- Outcome of a facade call that may return a value, return an error, or
panic (Rust `expect` / `unwrap` / `debug_assert!`). -/
inductive Outcome (α : Type) where
  | ok : α → Outcome α
  | err : FmodError → Outcome α
  | panicked : String → Outcome α
  deriving DecidableEq, Repr

/-- Near-side state of `AudioEngine` (`src/lib.rs`): the opaque middleware
handle is omitted (all middleware behaviour enters through oracle
arguments), the remaining four fields are embedded one for one.
`U64Id` is modelled as `Nat`. -/
structure AudioEngine where
  event_names : List String
  asset_id : Option Nat
  listener_position : Vec2
  listener_velocity : Vec2
  deriving DecidableEq, Repr

namespace AudioEngine

/-- Embeds `AudioEngine::new`.  `Studio::create` failure is propagated with
`?`; `initialize` failure hits the `expect` and panics with the literal
message from the source. -/
def new (createStatus : Int) (initStatus : Int) (live_update : Bool) :
    Outcome AudioEngine :=
  match Studio.create createStatus with
  | .error e => .err e
  | .ok _ =>
    let studio_flags :=
      if live_update then StudioInit_NORMAL ||| StudioInit_LIVEUPDATE
      else StudioInit_NORMAL
    match Studio.initialize_system initStatus 1024 studio_flags Init_RIGHTHANDED_3D with
    | .error _ => .panicked "Failed to initialize FMOD studio"
    | .ok _ =>
      .ok { event_names := [], asset_id := none,
            listener_position := Vec2.zero, listener_velocity := Vec2.zero }

/-- Paths actually accumulated from one bank: the source iterates
`get_event_list(..)` and `flat_map`s each descriptor's `get_path()`
result, so an `Err` from `get_path` contributes nothing. -/
def bankPaths (b : BankOracle) : List String :=
  b.events.filterMap fun d => (EventDescription.get_path d).toOption

/-- One buffer's processing inside `load_bank_files_from_memory` succeeds
exactly when all three boundary calls made for it answer `Ok`. -/
def bankOk (b : BankOracle) : Prop :=
  b.loadStatus = 0 ∧ b.countStatus = 0 ∧ b.listStatus = 0

instance (b : BankOracle) : Decidable (bankOk b) := by
  unfold bankOk; infer_instance

/-- The error `load_bank_files_from_memory` propagates from the first
failing boundary call while processing one buffer. -/
def bankFirstError (b : BankOracle) : FmodError :=
  if b.loadStatus ≠ 0 then
    errFmod "Studio_System_LoadBankMemory" (FMODResult.fromI32 b.loadStatus)
  else if b.countStatus ≠ 0 then
    errFmod "Studio_Bank_GetEventCount" (FMODResult.fromI32 b.countStatus)
  else
    errFmod "Studio_Bank_GetEventList" (FMODResult.fromI32 b.listStatus)

/-- The `for buffer in buffers` loop of `load_bank_files_from_memory`.
Returns the mutated engine (pushes into `event_names` survive an early
`?` return, as `self` is `&mut`), the loop's result, and the list of
buffers actually handed to `Studio_System_LoadBankMemory`. -/
def loadBanksGo (e : AudioEngine) (buffers : List BankOracle) :
    AudioEngine × Except FmodError Unit × List BankOracle :=
  match buffers with
  | [] => (e, .ok (), [])
  | b :: rest =>
    match Studio.load_bank_memory b LoadBank_NORMAL with
    | .error err => (e, .error err, [b])
    | .ok bank =>
      match Bank.get_event_count bank with
      | .error err => (e, .error err, [b])
      | .ok cnt =>
        match Bank.get_event_list bank cnt with
        | .error err => (e, .error err, [b])
        | .ok descs =>
          let e' := { e with event_names :=
            e.event_names ++ descs.filterMap fun d => (EventDescription.get_path d).toOption }
          let r := loadBanksGo e' rest
          (r.1, r.2.1, b :: r.2.2)

/-- Embeds `AudioEngine::load_bank_files_from_memory`: runs the loop, and
only after the whole loop succeeds stores `asset_id = Some(asset_id)`.
Third component: the buffers handed to `Studio_System_LoadBankMemory`. -/
def load_bank_files_from_memory (e : AudioEngine) (asset_id : Nat)
    (buffers : List BankOracle) :
    AudioEngine × Except FmodError Unit × List BankOracle :=
  match loadBanksGo e buffers with
  | (e', .ok _, log) => ({ e' with asset_id := some asset_id }, .ok (), log)
  | (e', .error err, log) => (e', .error err, log)

/-- Embeds `AudioEngine::unload_banks`: issues `unload_all` and panics
(`expect`) on failure; no near-side field is touched.  Second component:
the binding functions called. -/
def unload_banks (e : AudioEngine) (status : Int) :
    Outcome AudioEngine × List String :=
  (match Studio.unload_all status with
   | .ok _ => .ok e
   | .error _ => .panicked "failed to unload all",
   ["Studio_System_UnloadAll"])

/-- Embeds `AudioEngine::event_name_as_ref`: in debug builds
(`debug = true`) asserts that the name starts with `"event:/"`. -/
def event_name_as_ref (debug : Bool) (event_name : String) : Outcome String :=
  if debug ∧ ¬ event_name.startsWith "event:/" then
    .panicked "all fmod events begin with event:/"
  else
    .ok event_name

/-- Embeds `AudioEngine::create_event_instance`: path check, then
`get_event`, then `create_instance` (the instance handle is opaque). -/
def create_event_instance (debug : Bool) (getEventStatus createStatus : Int)
    (event_name : String) : Outcome Unit :=
  match event_name_as_ref debug event_name with
  | .panicked m => .panicked m
  | .err e => .err e
  | .ok name =>
    match Studio.get_event getEventStatus name with
    | .error e => .err e
    | .ok _ =>
      match EventDescription.create_instance createStatus with
      | .error e => .err e
      | .ok _ => .ok ()

/-- Embeds `AudioEngine::play_event`: create, then `start`, then
`release`. -/
def play_event (debug : Bool)
    (getEventStatus createStatus startStatus releaseStatus : Int)
    (event_name : String) : Outcome Unit :=
  match create_event_instance debug getEventStatus createStatus event_name with
  | .panicked m => .panicked m
  | .err e => .err e
  | .ok _ =>
    match WasmEventInstance.start startStatus with
    | .error e => .err e
    | .ok _ =>
      match WasmEventInstance.release releaseStatus with
      | .error e => .err e
      | .ok _ => .ok ()

/-- Embeds `AudioEngine::play_event_with_position_velocity`: create, then
`set_position_velocity`, then `start`, then `release`. -/
def play_event_with_position_velocity (debug : Bool)
    (getEventStatus createStatus setAttrStatus startStatus releaseStatus : Int)
    (event_name : String) (position velocity : Vec2) : Outcome Unit :=
  match create_event_instance debug getEventStatus createStatus event_name with
  | .panicked m => .panicked m
  | .err e => .err e
  | .ok _ =>
    match WasmEventInstance.set_3d_attributes setAttrStatus
        { position := ⟨position.x, position.y, 0⟩,
          velocity := ⟨velocity.x, velocity.y, 0⟩,
          forward := ⟨0, 1, 0⟩, up := ⟨0, 0, 1⟩ } with
    | .error e => .err e
    | .ok _ =>
      match WasmEventInstance.start startStatus with
      | .error e => .err e
      | .ok _ =>
        match WasmEventInstance.release releaseStatus with
        | .error e => .err e
        | .ok _ => .ok ()

/-- Embeds `AudioEngine::play_event_with_position`: delegates to
`play_event_with_position_velocity` with `Vec2::ZERO` velocity. -/
def play_event_with_position (debug : Bool)
    (getEventStatus createStatus setAttrStatus startStatus releaseStatus : Int)
    (event_name : String) (position : Vec2) : Outcome Unit :=
  play_event_with_position_velocity debug getEventStatus createStatus
    setAttrStatus startStatus releaseStatus event_name position Vec2.zero

/-- Embeds `AudioEngine::set_global_mute`: `get_bus("bus:/").unwrap()`
panics on a middleware failure; `set_mute` is infallible so its `unwrap`
never fires. -/
def set_global_mute (getBusStatus : Int) (mute : Bool) : Outcome Unit :=
  match Studio.get_bus getBusStatus "bus:/" with
  | .error _ => .panicked "called Result::unwrap on an Err value"
  | .ok _ =>
    match Bus.set_mute mute with
    | .error _ => .panicked "called Result::unwrap on an Err value"
    | .ok _ => .ok ()

/-- Embeds `AudioEngine::set_global_parameter`: propagates the binding
error with `?`. -/
def set_global_parameter (status : Int) (parameter_name : String)
    (value : Rat) : Except FmodError Unit :=
  match Studio.set_parameter_by_name status parameter_name value true with
  | .error e => .error e
  | .ok _ => .ok ()

/-- Embeds `AudioEngine::event_instance_count`: path check, `get_event`,
then `get_instance_count` (`as u32` on the way out is reflected by the
facade's u32 return type; the oracle count here is the raw i32). -/
def event_instance_count (debug : Bool) (getEventStatus countStatus : Int)
    (count : Int) (event_name : String) : Outcome Int :=
  match event_name_as_ref debug event_name with
  | .panicked m => .panicked m
  | .err e => .err e
  | .ok name =>
    match Studio.get_event getEventStatus name with
    | .error e => .err e
    | .ok _ =>
      match EventDescription.get_instance_count countStatus count with
      | .error e => .err e
      | .ok c => .ok c

/-- Embeds `AudioEngine::is_event_playing`:
`Ok(self.event_instance_count(event_name)? > 0)`. -/
def is_event_playing (debug : Bool) (getEventStatus countStatus : Int)
    (count : Int) (event_name : String) : Outcome Bool :=
  match event_instance_count debug getEventStatus countStatus count event_name with
  | .panicked m => .panicked m
  | .err e => .err e
  | .ok c => .ok (0 < c)

/-- Embeds `AudioEngine::set_listener_position_velocity`: one
`set_listener_attributes` call with the 2D pose lifted to 3D (z = 0,
forward (0,1,0), up (0,0,1)); only on `Ok` are the two near-side pose
fields overwritten. -/
def set_listener_position_velocity (e : AudioEngine) (status : Int)
    (position velocity : Vec2) : AudioEngine × Except FmodError Unit :=
  match Studio.set_listener_attributes status 0
      { position := ⟨position.x, position.y, 0⟩,
        velocity := ⟨velocity.x, velocity.y, 0⟩,
        forward := ⟨0, 1, 0⟩, up := ⟨0, 0, 1⟩ } none with
  | .error err => (e, .error err)
  | .ok _ =>
    ({ e with listener_position := position, listener_velocity := velocity },
     .ok ())

/-- Embeds `AudioEngine::set_listener_position`: reuses the stored
velocity. -/
def set_listener_position (e : AudioEngine) (status : Int) (position : Vec2) :
    AudioEngine × Except FmodError Unit :=
  e.set_listener_position_velocity status position e.listener_velocity

/-- Embeds `AudioEngine::set_listener_velocity`: reuses the stored
position. -/
def set_listener_velocity (e : AudioEngine) (status : Int) (velocity : Vec2) :
    AudioEngine × Except FmodError Unit :=
  e.set_listener_position_velocity status e.listener_position velocity

/-- Embeds `AudioEngine::update`: early `Ok` return while `asset_id` is
`None`, otherwise one `Studio_System_Update` call whose result is
propagated.  Second component: whether the pump was invoked. -/
def update (e : AudioEngine) (status : Int) : Except FmodError Unit × Bool :=
  match e.asset_id with
  | none => (.ok (), false)
  | some _ =>
    (match Studio.update status with
     | .error err => .error err
     | .ok _ => .ok (), true)

end AudioEngine

/-- Rust `u32 as i32` (two's-complement reinterpretation). -/
def u32AsI32 (n : Nat) : Int :=
  if n < 2147483648 then (n : Int) else (n : Int) - 4294967296

/-- Rust `i32 as u32` (two's-complement reinterpretation). -/
def i32AsU32 (i : Int) : Nat :=
  (i % 4294967296).toNat

namespace EventInstance

/-- Embeds the facade `EventInstance::set_pitch`: `debug_assert!(pitch >= 0.0)`
then the binding call.  (Pitch is an f32 in the source; an exact numeric
type stands in for its non-NaN values.) -/
def set_pitch (debug : Bool) (status : Int) (pitch : Rat) : Outcome Unit :=
  if debug ∧ pitch < 0 then
    .panicked "assertion failed: pitch >= 0.0"
  else
    match WasmEventInstance.set_pitch status pitch with
    | .error e => .err e
    | .ok _ => .ok ()

/-- Embeds the facade `EventInstance::set_timeline_position`: the u32
argument is passed to the binding as `timeline_position as i32`.  Second
component: the i32 actually transmitted across the boundary. -/
def set_timeline_position (status : Int) (timeline_position : Nat) :
    Except FmodError Unit × Int :=
  (WasmEventInstance.set_timeline_position status (u32AsI32 timeline_position),
   u32AsI32 timeline_position)

/-- Embeds the facade `EventInstance::timeline_position`:
`Ok(self.0.get_timeline_position()? as u32)`. -/
def timeline_position (status : Int) (stored : Int) : Except FmodError Nat :=
  match WasmEventInstance.get_timeline_position status stored with
  | .error e => .error e
  | .ok v => .ok (i32AsU32 v)

/-- Embeds the facade `EventInstance::playback_state` (the `state.into()`
between the wasm enum and the facade enum is the identity on the five
shared variant names, as both are embedded by one Lean type here). -/
def playback_state (status : Int) (state : PlaybackState) :
    Except FmodError PlaybackState :=
  match WasmEventInstance.get_playback_state status state with
  | .error e => .error e
  | .ok s => .ok s

end EventInstance

/-! Helper lemmas shared by the claim theorems. -/

theorem fromI32_zero : FMODResult.fromI32 0 = .Ok := rfl

theorem fromI32_negSucc (n : Nat) :
    FMODResult.fromI32 (Int.negSucc n) = .ErrUnknown := rfl

theorem fromI32_big (k : Nat) :
    FMODResult.fromI32 (Int.ofNat (k + 82)) = .ErrUnknown := rfl

theorem fromI32_eq_ok_iff (i : Int) : FMODResult.fromI32 i = .Ok ↔ i = 0 := by
  constructor
  · intro h
    by_contra hne
    cases i with
    | ofNat n =>
      by_cases hn : n < 82
      · have hsmall : ∀ m : Nat, m < 82 → m ≠ 0 →
            FMODResult.fromI32 (Int.ofNat m) ≠ .Ok := by decide
        rw [Int.ofNat_eq_natCast] at hne
        exact hsmall n hn (by omega) h
      · obtain ⟨k, rfl⟩ : ∃ k, n = k + 82 := ⟨n - 82, by omega⟩
        rw [fromI32_big] at h
        exact absurd h (by decide)
    | negSucc n =>
      rw [fromI32_negSucc] at h
      exact absurd h (by decide)
  · intro h
    subst h
    rfl

theorem jsCallStatus_zero (name : String) : jsCallStatus name 0 = .ok () := rfl

theorem jsCallStatus_of_ne (name : String) (s : Int) (h : s ≠ 0) :
    jsCallStatus name s = .error ⟨name, (FMODResult.fromI32 s).code, ""⟩ := by
  unfold jsCallStatus
  split
  next heq => exact absurd ((fromI32_eq_ok_iff s).mp heq) h
  next err heq => rfl

theorem jsCallValue_zero {α : Type} (name : String) (v : α) :
    jsCallValue name 0 v = .ok v := rfl

theorem jsCallValue_of_ne {α : Type} (name : String) (s : Int) (v : α)
    (h : s ≠ 0) :
    jsCallValue name s v = .error ⟨name, (FMODResult.fromI32 s).code, ""⟩ := by
  unfold jsCallValue
  split
  next heq => exact absurd ((fromI32_eq_ok_iff s).mp heq) h
  next err heq => rfl

theorem set_listener_attributes_zero (index : Int) (a : Attributes3d)
    (ap : Option FMODVector) :
    Studio.set_listener_attributes 0 index a ap = .ok () := rfl

theorem set_listener_attributes_of_ne (s : Int) (index : Int)
    (a : Attributes3d) (ap : Option FMODVector) (h : s ≠ 0) :
    Studio.set_listener_attributes s index a ap
      = .error ⟨"Studio_System_Update", (FMODResult.fromI32 s).code, ""⟩ := by
  unfold Studio.set_listener_attributes
  split
  next heq => exact absurd ((fromI32_eq_ok_iff s).mp heq) h
  next err heq => rfl

/-! Claim theorems. -/

/-- C4: the status-code mapping (`impl From<i32> for FMODResult`) is
exhaustive and total.  Every code 0..=81 maps to the variant whose
declared repr(i32) discriminant equals that code (its corresponding named
kind, with 0 mapping to `Ok`), and every other integer — negative or above
81 — maps to the catch-all `ErrUnknown`.  Totality of the Lean function
(no panic for any input) is intrinsic to the definition compiling. -/
theorem c4_status_mapping_total :
    (∀ n : Nat, n < 82 → (FMODResult.fromI32 (n : Int)).code = (n : Int))
    ∧ FMODResult.fromI32 0 = .Ok
    ∧ (∀ i : Int, i < 0 ∨ 81 < i → FMODResult.fromI32 i = .ErrUnknown) := by
  refine ⟨by decide, rfl, ?_⟩
  intro i h
  cases i with
  | ofNat n =>
    rw [Int.ofNat_eq_natCast] at h
    obtain ⟨k, rfl⟩ : ∃ k, n = k + 82 := ⟨n - 82, by omega⟩
    exact fromI32_big k
  | negSucc n => exact fromI32_negSucc n

/-- C4 witness: the theorem applied at codes 30 and -5. -/
theorem c4_status_mapping_total_witness :
    (FMODResult.fromI32 ((30 : Nat) : Int)).code = ((30 : Nat) : Int)
    ∧ FMODResult.fromI32 (-5) = .ErrUnknown :=
  ⟨c4_status_mapping_total.1 30 (by decide),
   c4_status_mapping_total.2.2 (-5) (by decide)⟩

/-- C1: evaluation of the two mislabelled binding operations at status 30
(`FMOD_ERR_INVALID_HANDLE`).  `Studio::set_listener_attributes` wraps a
non-Ok status with the name `"Studio_System_Update"` — not its own
originating operation (`Studio_System_SetListenerAttributes`) — and
`EventInstance::get_playback_state` wraps it with
`"Studio_EventInstance_GetPitch"`; every other binding method passes its
own name to `err_fmod!`, so these two labels are copy-paste slips. -/
theorem c1_error_label_mismatch :
    Studio.set_listener_attributes 30 0
        { position := ⟨0, 0, 0⟩, velocity := ⟨0, 0, 0⟩,
          forward := ⟨0, 1, 0⟩, up := ⟨0, 0, 1⟩ } none
      = .error ⟨"Studio_System_Update", 30, ""⟩
    ∧ WasmEventInstance.get_playback_state 30 .Stopped
      = .error ⟨"Studio_EventInstance_GetPitch", 30, ""⟩ :=
  ⟨rfl, rfl⟩

theorem loadBanksGo_all_ok (buffers : List BankOracle) :
    ∀ e : AudioEngine, (∀ b ∈ buffers, AudioEngine.bankOk b) →
      AudioEngine.loadBanksGo e buffers =
        ({ e with event_names :=
            e.event_names ++ (buffers.map AudioEngine.bankPaths).flatten },
         .ok (), buffers) := by
  induction buffers with
  | nil =>
    intro e h
    simp [AudioEngine.loadBanksGo]
  | cons b rest ih =>
    intro e h
    obtain ⟨h1, h2, h3⟩ := h b (List.mem_cons_self b rest)
    have hrest : ∀ x ∈ rest, AudioEngine.bankOk x :=
      fun x hx => h x (List.mem_cons_of_mem b hx)
    simp only [AudioEngine.loadBanksGo, Studio.load_bank_memory,
      Bank.get_event_count, Bank.get_event_list, h1, h2, h3, jsCallValue_zero]
    rw [ih _ hrest]
    simp [AudioEngine.bankPaths, List.append_assoc]

theorem loadBanksGo_first_fail (pre : List BankOracle) :
    ∀ (e : AudioEngine) (b : BankOracle) (post : List BankOracle),
      (∀ x ∈ pre, AudioEngine.bankOk x) → ¬ AudioEngine.bankOk b →
      AudioEngine.loadBanksGo e (pre ++ b :: post) =
        ({ e with event_names :=
            e.event_names ++ (pre.map AudioEngine.bankPaths).flatten },
         .error (AudioEngine.bankFirstError b), pre ++ [b]) := by
  induction pre with
  | nil =>
    intro e b post hpre hb
    by_cases h1 : b.loadStatus = 0
    · by_cases h2 : b.countStatus = 0
      · have h3 : b.listStatus ≠ 0 := fun h3 => hb ⟨h1, h2, h3⟩
        simp only [List.nil_append, AudioEngine.loadBanksGo,
          Studio.load_bank_memory, Bank.get_event_count, Bank.get_event_list,
          h1, h2, jsCallValue_zero, jsCallValue_of_ne _ _ _ h3]
        simp [AudioEngine.bankFirstError, h1, h2, h3, errFmod]
      · simp only [List.nil_append, AudioEngine.loadBanksGo,
          Studio.load_bank_memory, Bank.get_event_count, h1, jsCallValue_zero,
          jsCallValue_of_ne _ _ _ h2]
        simp [AudioEngine.bankFirstError, h1, h2, errFmod]
    · simp only [List.nil_append, AudioEngine.loadBanksGo,
        Studio.load_bank_memory, jsCallValue_of_ne _ _ _ h1]
      simp [AudioEngine.bankFirstError, h1, errFmod]
  | cons a pre ih =>
    intro e b post hpre hb
    obtain ⟨h1, h2, h3⟩ := hpre a (List.mem_cons_self a pre)
    have hrest : ∀ x ∈ pre, AudioEngine.bankOk x :=
      fun x hx => hpre x (List.mem_cons_of_mem a hx)
    simp only [List.cons_append, AudioEngine.loadBanksGo,
      Studio.load_bank_memory, Bank.get_event_count, Bank.get_event_list,
      h1, h2, h3, jsCallValue_zero, List.append_eq]
    rw [ih _ b post hrest hb]
    simp [AudioEngine.bankPaths, List.append_assoc]

/-- C2: `load_bank_files_from_memory` loads the buffers in order.  When
every buffer's processing succeeds it returns `Ok`, appends each bank's
discovered event paths in order to `event_names`, records the asset id,
and every buffer was handed to the middleware.  When a buffer fails it
returns that buffer's first error, the buffers after it are never handed
to the middleware, the paths of the earlier (successfully processed)
buffers remain accumulated, and `asset_id` is left untouched — in
particular it is recorded exactly when every buffer loaded
successfully. -/
theorem c2_load_banks_fail_fast :
    (∀ (e : AudioEngine) (asset : Nat) (buffers : List BankOracle),
        (∀ b ∈ buffers, AudioEngine.bankOk b) →
        AudioEngine.load_bank_files_from_memory e asset buffers =
          ({ e with
              event_names :=
                e.event_names ++ (buffers.map AudioEngine.bankPaths).flatten,
              asset_id := some asset },
           .ok (), buffers))
    ∧ (∀ (e : AudioEngine) (asset : Nat) (pre : List BankOracle)
          (b : BankOracle) (post : List BankOracle),
        (∀ x ∈ pre, AudioEngine.bankOk x) → ¬ AudioEngine.bankOk b →
        AudioEngine.load_bank_files_from_memory e asset (pre ++ b :: post) =
          ({ e with
              event_names :=
                e.event_names ++ (pre.map AudioEngine.bankPaths).flatten },
           .error (AudioEngine.bankFirstError b), pre ++ [b])) := by
  constructor
  · intro e asset buffers h
    unfold AudioEngine.load_bank_files_from_memory
    rw [loadBanksGo_all_ok buffers e h]
  · intro e asset pre b post hpre hb
    unfold AudioEngine.load_bank_files_from_memory
    rw [loadBanksGo_first_fail pre e b post hpre hb]

/-- C2 witness: one fully successful load (a path-lookup failure inside a
bank is skipped, not fatal), and one run where the second buffer fails to
load after a successful first buffer. -/
theorem c2_load_banks_fail_fast_witness :
    AudioEngine.load_bank_files_from_memory
        ⟨["event:/old"], none, ⟨0, 0⟩, ⟨0, 0⟩⟩ 7
        [⟨0, 0, 2, 0, [⟨0, "event:/a"⟩, ⟨30, "bad"⟩]⟩] =
      ({ (⟨["event:/old"], none, ⟨0, 0⟩, ⟨0, 0⟩⟩ : AudioEngine) with
          event_names := ["event:/old"] ++
            (([⟨0, 0, 2, 0, [⟨0, "event:/a"⟩, ⟨30, "bad"⟩]⟩] :
              List BankOracle).map AudioEngine.bankPaths).flatten,
          asset_id := some 7 },
       .ok (), [⟨0, 0, 2, 0, [⟨0, "event:/a"⟩, ⟨30, "bad"⟩]⟩])
    ∧ AudioEngine.load_bank_files_from_memory
        ⟨[], none, ⟨0, 0⟩, ⟨0, 0⟩⟩ 9
        ([⟨0, 0, 1, 0, [⟨0, "event:/a"⟩]⟩] ++
          ⟨30, 0, 0, 0, []⟩ :: [⟨0, 0, 1, 0, [⟨0, "event:/b"⟩]⟩]) =
      ({ (⟨[], none, ⟨0, 0⟩, ⟨0, 0⟩⟩ : AudioEngine) with
          event_names := [] ++
            (([⟨0, 0, 1, 0, [⟨0, "event:/a"⟩]⟩] :
              List BankOracle).map AudioEngine.bankPaths).flatten },
       .error (AudioEngine.bankFirstError ⟨30, 0, 0, 0, []⟩),
       [⟨0, 0, 1, 0, [⟨0, "event:/a"⟩]⟩] ++ [⟨30, 0, 0, 0, []⟩]) :=
  ⟨c2_load_banks_fail_fast.1 ⟨["event:/old"], none, ⟨0, 0⟩, ⟨0, 0⟩⟩ 7
      [⟨0, 0, 2, 0, [⟨0, "event:/a"⟩, ⟨30, "bad"⟩]⟩] (by decide),
   c2_load_banks_fail_fast.2 ⟨[], none, ⟨0, 0⟩, ⟨0, 0⟩⟩ 9
      [⟨0, 0, 1, 0, [⟨0, "event:/a"⟩]⟩] ⟨30, 0, 0, 0, []⟩
      [⟨0, 0, 1, 0, [⟨0, "event:/b"⟩]⟩] (by decide) (by decide)⟩

/-- C3: `set_listener_position_velocity` succeeds exactly when the single
middleware call answers `Ok` (status 0); on success both stored pose
fields are the new position and velocity, and on failure the engine state
is unchanged (so position is never applied without velocity or
vice versa, and the values observable through the `listener_position` /
`listener_velocity` getters are untouched). -/
theorem c3_listener_pose_atomic :
    ∀ (e : AudioEngine) (status : Int) (p v : Vec2),
      ((e.set_listener_position_velocity status p v).2 = .ok () ↔ status = 0)
      ∧ (status = 0 →
          (e.set_listener_position_velocity status p v).1.listener_position = p
          ∧ (e.set_listener_position_velocity status p v).1.listener_velocity = v)
      ∧ (status ≠ 0 → (e.set_listener_position_velocity status p v).1 = e) := by
  intro e status p v
  by_cases h : status = 0
  · subst h
    exact ⟨⟨fun _ => rfl, fun _ => rfl⟩, fun _ => ⟨rfl, rfl⟩,
      fun hn => absurd rfl hn⟩
  · have hz := set_listener_attributes_of_ne status 0
      { position := ⟨p.x, p.y, 0⟩, velocity := ⟨v.x, v.y, 0⟩,
        forward := ⟨0, 1, 0⟩, up := ⟨0, 0, 1⟩ } none h
    have hred : e.set_listener_position_velocity status p v =
        (e, .error ⟨"Studio_System_Update",
          (FMODResult.fromI32 status).code, ""⟩) := by
      unfold AudioEngine.set_listener_position_velocity
      rw [hz]
    rw [hred]
    exact ⟨⟨fun hok => Except.noConfusion hok, fun h0 => absurd h0 h⟩,
      fun h0 => absurd h0 h, fun _ => rfl⟩

/-- C3 witness: the theorem applied with a successful status (pose
committed) and with status 30 (pose rolled back). -/
theorem c3_listener_pose_atomic_witness :
    ((⟨[], none, ⟨1, 1⟩, ⟨2, 2⟩⟩ : AudioEngine).set_listener_position_velocity
        0 ⟨3, 4⟩ ⟨5, 6⟩).1.listener_position = ⟨3, 4⟩
    ∧ ((⟨[], none, ⟨1, 1⟩, ⟨2, 2⟩⟩ : AudioEngine).set_listener_position_velocity
        30 ⟨3, 4⟩ ⟨5, 6⟩).1 = ⟨[], none, ⟨1, 1⟩, ⟨2, 2⟩⟩ :=
  ⟨((c3_listener_pose_atomic ⟨[], none, ⟨1, 1⟩, ⟨2, 2⟩⟩ 0 ⟨3, 4⟩ ⟨5, 6⟩).2.1
      rfl).1,
   (c3_listener_pose_atomic ⟨[], none, ⟨1, 1⟩, ⟨2, 2⟩⟩ 30 ⟨3, 4⟩ ⟨5, 6⟩).2.2
      (by decide)⟩

/-- C9: while no asset id is recorded, `update` returns `Ok` without
invoking the middleware pump (second component `false`); once an asset id
is recorded it invokes the pump and propagates that call's result —
`Ok` exactly for status 0, and the wrapped `Studio_System_Update` error
otherwise. -/
theorem c9_update_gated_on_asset :
    ∀ (e : AudioEngine) (s : Int),
      (e.asset_id = none → e.update s = (.ok (), false))
      ∧ (e.asset_id ≠ none →
          (e.update s).2 = true
          ∧ ((e.update s).1 = .ok () ↔ s = 0)
          ∧ (s ≠ 0 → (e.update s).1 =
              .error ⟨"Studio_System_Update", (FMODResult.fromI32 s).code, ""⟩)) := by
  intro e s
  rcases ha : e.asset_id with _ | id
  · refine ⟨fun _ => ?_, fun hn => absurd rfl hn⟩
    simp [AudioEngine.update, ha]
  · refine ⟨fun h0 => absurd h0 (by simp), fun _ => ?_⟩
    by_cases hs : s = 0
    · subst hs
      simp [AudioEngine.update, ha, Studio.update, jsCallStatus_zero]
    · simp [AudioEngine.update, ha, Studio.update, jsCallStatus_of_ne _ _ hs, hs]

/-- C9 witness: the theorem applied to an engine without an asset id
(status irrelevant) and to one with an asset id and a failing pump. -/
theorem c9_update_gated_on_asset_witness :
    (⟨[], none, ⟨0, 0⟩, ⟨0, 0⟩⟩ : AudioEngine).update 5 = (.ok (), false)
    ∧ ((⟨[], some 3, ⟨0, 0⟩, ⟨0, 0⟩⟩ : AudioEngine).update 30).1 =
        .error ⟨"Studio_System_Update", (FMODResult.fromI32 30).code, ""⟩ :=
  ⟨(c9_update_gated_on_asset ⟨[], none, ⟨0, 0⟩, ⟨0, 0⟩⟩ 5).1 rfl,
   ((c9_update_gated_on_asset ⟨[], some 3, ⟨0, 0⟩, ⟨0, 0⟩⟩ 30).2
      (by decide)).2.2 (by decide)⟩

/-- C10: `unload_banks` issues exactly the one `Studio_System_UnloadAll`
middleware call; when that call succeeds the returned engine is the input
engine unchanged — `event_names`, `asset_id` (hence `update`'s pumping
behaviour) and the stored listener position and velocity are all
untouched — and when it fails the function panics (`expect`) instead of
returning. -/
theorem c10_unload_banks_frame :
    ∀ (e : AudioEngine) (s : Int),
      (e.unload_banks s).2 = ["Studio_System_UnloadAll"]
      ∧ (s = 0 → (e.unload_banks s).1 = .ok e)
      ∧ (s ≠ 0 → (e.unload_banks s).1 = .panicked "failed to unload all") := by
  intro e s
  refine ⟨rfl, fun h0 => ?_, fun hn => ?_⟩
  · subst h0
    rfl
  · simp [AudioEngine.unload_banks, Studio.unload_all,
      jsCallStatus_of_ne _ _ hn]

/-- C10 witness: the theorem applied to a populated engine with a
successful unload, and with a failing unload. -/
theorem c10_unload_banks_frame_witness :
    ((⟨["event:/a"], some 4, ⟨1, 2⟩, ⟨3, 4⟩⟩ : AudioEngine).unload_banks 0).1 =
      .ok ⟨["event:/a"], some 4, ⟨1, 2⟩, ⟨3, 4⟩⟩
    ∧ ((⟨["event:/a"], some 4, ⟨1, 2⟩, ⟨3, 4⟩⟩ : AudioEngine).unload_banks 30).1 =
      .panicked "failed to unload all" :=
  ⟨(c10_unload_banks_frame ⟨["event:/a"], some 4, ⟨1, 2⟩, ⟨3, 4⟩⟩ 0).2.1 rfl,
   (c10_unload_banks_frame ⟨["event:/a"], some 4, ⟨1, 2⟩, ⟨3, 4⟩⟩ 30).2.2
      (by decide)⟩

/-- C6 counterexample: at concrete failing middleware statuses, engine
creation does not fail with an initialization error — it panics via
`expect` when the `initialize` step reports `FMOD_ERR_INITIALIZATION`
(26) — and `set_global_mute` does not surface a `get_bus` failure
(status 30) to its caller: it panics via `unwrap`. -/
theorem c6_facade_panics_counterexample :
    AudioEngine.new 0 26 false = .panicked "Failed to initialize FMOD studio"
    ∧ AudioEngine.set_global_mute 30 true =
        .panicked "called Result::unwrap on an Err value" :=
  ⟨rfl, rfl⟩

/-- C6 (amended): fallible facade operations return their middleware
error unchanged to the immediate caller, never retrying or swallowing it
(`set_global_parameter` is the propagating representative, and equals its
single middleware call verbatim), with these exceptions: engine creation
returns an error only when the system-creation step fails and panics
(`expect`) when middleware initialization fails, and `set_global_mute`
panics (`unwrap`) on a middleware failure instead of returning it
(`unload_banks` aborting is the documented exception). -/
theorem c6_error_propagation_amended :
    (∀ (cs is lu : _), cs ≠ 0 →
        AudioEngine.new cs is lu =
          .err ⟨"Studio_System_Create", (FMODResult.fromI32 cs).code, ""⟩)
    ∧ (∀ (is : Int) (lu : Bool), is ≠ 0 →
        AudioEngine.new 0 is lu = .panicked "Failed to initialize FMOD studio")
    ∧ (∀ lu : Bool,
        AudioEngine.new 0 0 lu = .ok ⟨[], none, Vec2.zero, Vec2.zero⟩)
    ∧ (∀ (bs : Int) (m : Bool), bs ≠ 0 →
        AudioEngine.set_global_mute bs m =
          .panicked "called Result::unwrap on an Err value")
    ∧ (∀ m : Bool, AudioEngine.set_global_mute 0 m = .ok ())
    ∧ (∀ (s : Int) (n : String) (v : Rat), s ≠ 0 →
        AudioEngine.set_global_parameter s n v =
          .error ⟨"Studio_System_SetParameterByName",
            (FMODResult.fromI32 s).code, ""⟩)
    ∧ (∀ (s : Int) (n : String) (v : Rat),
        AudioEngine.set_global_parameter s n v =
          Studio.set_parameter_by_name s n v true) := by
  refine ⟨?_, ?_, fun lu => rfl, ?_, fun m => rfl, ?_, ?_⟩
  · intro cs is lu h
    unfold AudioEngine.new Studio.create
    rw [jsCallValue_of_ne _ _ _ h]
  · intro is lu h
    unfold AudioEngine.new Studio.create Studio.initialize_system
    rw [jsCallValue_zero, jsCallStatus_of_ne _ _ h]
  · intro bs m h
    unfold AudioEngine.set_global_mute Studio.get_bus
    rw [jsCallValue_of_ne _ _ _ h]
  · intro s n v h
    unfold AudioEngine.set_global_parameter Studio.set_parameter_by_name
    rw [jsCallStatus_of_ne _ _ h]
  · intro s n v
    rcases hh : Studio.set_parameter_by_name s n v true with e | u
    · simp [AudioEngine.set_global_parameter, hh]
    · simp [AudioEngine.set_global_parameter, hh]

/-- C6 witness: amended theorem applied at concrete statuses — a failing
`Studio_System_Create` (26), a failing `get_bus` (30), and a failing
`set_parameter_by_name` (31). -/
theorem c6_error_propagation_amended_witness :
    AudioEngine.new 26 0 false =
      .err ⟨"Studio_System_Create", (FMODResult.fromI32 26).code, ""⟩
    ∧ AudioEngine.set_global_mute 30 false =
        .panicked "called Result::unwrap on an Err value"
    ∧ AudioEngine.set_global_parameter 31 "health" 1 =
        .error ⟨"Studio_System_SetParameterByName",
          (FMODResult.fromI32 31).code, ""⟩ :=
  ⟨c6_error_propagation_amended.1 26 0 false (by decide),
   c6_error_propagation_amended.2.2.2.1 30 false (by decide),
   c6_error_propagation_amended.2.2.2.2.2.1 31 "health" 1 (by decide)⟩

/-- C7: the timeline cursor is accepted and returned as an unsigned
millisecond count but crosses the boundary as an i32.  For every value at
most `i32::MAX` (2147483647) the `as i32` cast transmits exactly that
value, and `timeline_position` (which casts the stored i32 back with
`as u32`) round-trips it; larger values are documented as a caller error
in the source (`set_timeline_position` doc comment). -/
theorem c7_timeline_position_roundtrip :
    ∀ (s : Int) (v : Nat), v ≤ 2147483647 →
      (EventInstance.set_timeline_position s v).2 = (v : Int)
      ∧ (EventInstance.set_timeline_position 0 v).1 = .ok ()
      ∧ EventInstance.timeline_position 0
          ((EventInstance.set_timeline_position s v).2) = .ok v := by
  intro s v hv
  have hcast : u32AsI32 v = (v : Int) := by
    unfold u32AsI32
    rw [if_pos (by omega)]
  refine ⟨hcast, rfl, ?_⟩
  show EventInstance.timeline_position 0 (u32AsI32 v) = .ok v
  rw [hcast]
  unfold EventInstance.timeline_position WasmEventInstance.get_timeline_position
  rw [jsCallValue_zero]
  show Except.ok (i32AsU32 (v : Int)) = Except.ok v
  congr 1
  unfold i32AsU32
  omega

/-- C7 witness: the theorem applied at 123 milliseconds. -/
theorem c7_timeline_position_roundtrip_witness :
    (EventInstance.set_timeline_position 0 123).2 = ((123 : Nat) : Int)
    ∧ EventInstance.timeline_position 0
        ((EventInstance.set_timeline_position 0 123).2) = .ok 123 :=
  ⟨(c7_timeline_position_roundtrip 0 123 (by decide)).1,
   (c7_timeline_position_roundtrip 0 123 (by decide)).2.2⟩

theorem cei_debug_panics (ges cs : Int) (name : String)
    (h : ¬ name.startsWith "event:/") :
    AudioEngine.create_event_instance true ges cs name =
      .panicked "all fmod events begin with event:/" := by
  unfold AudioEngine.create_event_instance AudioEngine.event_name_as_ref
  rw [if_pos ⟨rfl, h⟩]

theorem cei_release_clean (ges cs : Int) (name m : String) :
    AudioEngine.create_event_instance false ges cs name ≠ .panicked m := by
  unfold AudioEngine.create_event_instance AudioEngine.event_name_as_ref
  simp only [Bool.false_eq_true, false_and, if_false]
  rcases h1 : Studio.get_event ges name with e | u
  · simp [h1]
  · rcases h2 : EventDescription.create_instance cs with e2 | u2 <;> simp [h1, h2]

theorem play_debug_panics (ges cs ss rs : Int) (name : String)
    (h : ¬ name.startsWith "event:/") :
    AudioEngine.play_event true ges cs ss rs name =
      .panicked "all fmod events begin with event:/" := by
  unfold AudioEngine.play_event
  rw [cei_debug_panics ges cs name h]

theorem play_release_clean (ges cs ss rs : Int) (name m : String) :
    AudioEngine.play_event false ges cs ss rs name ≠ .panicked m := by
  unfold AudioEngine.play_event
  rcases h : AudioEngine.create_event_instance false ges cs name with u | e | mm
  · rcases hs : WasmEventInstance.start ss with e1 | u1
    · simp [hs]
    · rcases hr : WasmEventInstance.release rs with e2 | u2 <;> simp [hs, hr]
  · simp
  · exact absurd h (cei_release_clean ges cs name mm)

theorem pwpv_debug_panics (ges cs sas ss rs : Int) (name : String)
    (p v : Vec2) (h : ¬ name.startsWith "event:/") :
    AudioEngine.play_event_with_position_velocity true ges cs sas ss rs
        name p v = .panicked "all fmod events begin with event:/" := by
  unfold AudioEngine.play_event_with_position_velocity
  rw [cei_debug_panics ges cs name h]

theorem pwpv_release_clean (ges cs sas ss rs : Int) (name m : String)
    (p v : Vec2) :
    AudioEngine.play_event_with_position_velocity false ges cs sas ss rs
        name p v ≠ .panicked m := by
  unfold AudioEngine.play_event_with_position_velocity
  rcases h : AudioEngine.create_event_instance false ges cs name with u | e | mm
  · rcases ha : WasmEventInstance.set_3d_attributes sas
        { position := ⟨p.x, p.y, 0⟩, velocity := ⟨v.x, v.y, 0⟩,
          forward := ⟨0, 1, 0⟩, up := ⟨0, 0, 1⟩ } with e0 | u0
    · simp [ha]
    · rcases hs : WasmEventInstance.start ss with e1 | u1
      · simp [ha, hs]
      · rcases hr : WasmEventInstance.release rs with e2 | u2 <;> simp [ha, hs, hr]
  · simp
  · exact absurd h (cei_release_clean ges cs name mm)

theorem pwp_debug_panics (ges cs sas ss rs : Int) (name : String) (p : Vec2)
    (h : ¬ name.startsWith "event:/") :
    AudioEngine.play_event_with_position true ges cs sas ss rs name p =
      .panicked "all fmod events begin with event:/" := by
  unfold AudioEngine.play_event_with_position
  exact pwpv_debug_panics ges cs sas ss rs name p Vec2.zero h

theorem pwp_release_clean (ges cs sas ss rs : Int) (name m : String)
    (p : Vec2) :
    AudioEngine.play_event_with_position false ges cs sas ss rs name p ≠
      .panicked m := by
  unfold AudioEngine.play_event_with_position
  exact pwpv_release_clean ges cs sas ss rs name m p Vec2.zero

theorem eic_debug_panics (ges cnts cnt : Int) (name : String)
    (h : ¬ name.startsWith "event:/") :
    AudioEngine.event_instance_count true ges cnts cnt name =
      .panicked "all fmod events begin with event:/" := by
  unfold AudioEngine.event_instance_count AudioEngine.event_name_as_ref
  rw [if_pos ⟨rfl, h⟩]

theorem eic_release_clean (ges cnts cnt : Int) (name m : String) :
    AudioEngine.event_instance_count false ges cnts cnt name ≠ .panicked m := by
  unfold AudioEngine.event_instance_count AudioEngine.event_name_as_ref
  simp only [Bool.false_eq_true, false_and, if_false]
  rcases h1 : Studio.get_event ges name with e | u
  · simp [h1]
  · rcases h2 : EventDescription.get_instance_count cnts cnt with e2 | c <;>
      simp [h1, h2]

theorem iep_debug_panics (ges cnts cnt : Int) (name : String)
    (h : ¬ name.startsWith "event:/") :
    AudioEngine.is_event_playing true ges cnts cnt name =
      .panicked "all fmod events begin with event:/" := by
  unfold AudioEngine.is_event_playing
  rw [eic_debug_panics ges cnts cnt name h]

theorem iep_release_clean (ges cnts cnt : Int) (name m : String) :
    AudioEngine.is_event_playing false ges cnts cnt name ≠ .panicked m := by
  unfold AudioEngine.is_event_playing
  rcases h : AudioEngine.event_instance_count false ges cnts cnt name
    with c | e | mm
  · simp
  · simp
  · exact absurd h (eic_release_clean ges cnts cnt name mm)

theorem set_pitch_debug_panics (s : Int) (p : Rat) (h : p < 0) :
    EventInstance.set_pitch true s p =
      .panicked "assertion failed: pitch >= 0.0" := by
  unfold EventInstance.set_pitch
  rw [if_pos ⟨rfl, h⟩]

theorem set_pitch_release_clean (s : Int) (p : Rat) (m : String) :
    EventInstance.set_pitch false s p ≠ .panicked m := by
  unfold EventInstance.set_pitch
  simp only [Bool.false_eq_true, false_and, if_false]
  rcases h1 : WasmEventInstance.set_pitch s p with e | u <;> simp [h1]

/-- C8: in debug builds (`debug = true`), every engine operation that
takes an event path — `create_event_instance`, `play_event`,
`play_event_with_position`, `play_event_with_position_velocity`,
`is_event_playing`, `event_instance_count` — panics when the path does
not begin with `"event:/"`, and `set_pitch` panics when the pitch is
negative; with `debug = false` (release builds) none of these operations
panics, whatever the middleware answers. -/
theorem c8_debug_only_assertions :
    (∀ (ges cs : Int) (name : String), ¬ name.startsWith "event:/" →
        AudioEngine.create_event_instance true ges cs name =
          .panicked "all fmod events begin with event:/")
    ∧ (∀ (ges cs ss rs : Int) (name : String), ¬ name.startsWith "event:/" →
        AudioEngine.play_event true ges cs ss rs name =
          .panicked "all fmod events begin with event:/")
    ∧ (∀ (ges cs sas ss rs : Int) (name : String) (p : Vec2),
        ¬ name.startsWith "event:/" →
        AudioEngine.play_event_with_position true ges cs sas ss rs name p =
          .panicked "all fmod events begin with event:/")
    ∧ (∀ (ges cs sas ss rs : Int) (name : String) (p v : Vec2),
        ¬ name.startsWith "event:/" →
        AudioEngine.play_event_with_position_velocity true ges cs sas ss rs
            name p v = .panicked "all fmod events begin with event:/")
    ∧ (∀ (ges cnts cnt : Int) (name : String), ¬ name.startsWith "event:/" →
        AudioEngine.is_event_playing true ges cnts cnt name =
          .panicked "all fmod events begin with event:/")
    ∧ (∀ (ges cnts cnt : Int) (name : String), ¬ name.startsWith "event:/" →
        AudioEngine.event_instance_count true ges cnts cnt name =
          .panicked "all fmod events begin with event:/")
    ∧ (∀ (s : Int) (p : Rat), p < 0 →
        EventInstance.set_pitch true s p =
          .panicked "assertion failed: pitch >= 0.0")
    ∧ (∀ (ges cs : Int) (name m : String),
        AudioEngine.create_event_instance false ges cs name ≠ .panicked m)
    ∧ (∀ (ges cs ss rs : Int) (name m : String),
        AudioEngine.play_event false ges cs ss rs name ≠ .panicked m)
    ∧ (∀ (ges cs sas ss rs : Int) (name m : String) (p : Vec2),
        AudioEngine.play_event_with_position false ges cs sas ss rs name p ≠
          .panicked m)
    ∧ (∀ (ges cs sas ss rs : Int) (name m : String) (p v : Vec2),
        AudioEngine.play_event_with_position_velocity false ges cs sas ss rs
            name p v ≠ .panicked m)
    ∧ (∀ (ges cnts cnt : Int) (name m : String),
        AudioEngine.is_event_playing false ges cnts cnt name ≠ .panicked m)
    ∧ (∀ (ges cnts cnt : Int) (name m : String),
        AudioEngine.event_instance_count false ges cnts cnt name ≠ .panicked m)
    ∧ (∀ (s : Int) (p : Rat) (m : String),
        EventInstance.set_pitch false s p ≠ .panicked m) :=
  ⟨fun ges cs name h => cei_debug_panics ges cs name h,
   fun ges cs ss rs name h => play_debug_panics ges cs ss rs name h,
   fun ges cs sas ss rs name p h => pwp_debug_panics ges cs sas ss rs name p h,
   fun ges cs sas ss rs name p v h =>
     pwpv_debug_panics ges cs sas ss rs name p v h,
   fun ges cnts cnt name h => iep_debug_panics ges cnts cnt name h,
   fun ges cnts cnt name h => eic_debug_panics ges cnts cnt name h,
   fun s p h => set_pitch_debug_panics s p h,
   fun ges cs name m => cei_release_clean ges cs name m,
   fun ges cs ss rs name m => play_release_clean ges cs ss rs name m,
   fun ges cs sas ss rs name m p => pwp_release_clean ges cs sas ss rs name m p,
   fun ges cs sas ss rs name m p v =>
     pwpv_release_clean ges cs sas ss rs name m p v,
   fun ges cnts cnt name m => iep_release_clean ges cnts cnt name m,
   fun ges cnts cnt name m => eic_release_clean ges cnts cnt name m,
   fun s p m => set_pitch_release_clean s p m⟩

/-- C8 witness: the theorem applied to the malformed path `"oops"` and the
negative pitch -1 in debug mode. -/
theorem c8_debug_only_assertions_witness :
    AudioEngine.create_event_instance true 0 0 "oops" =
      .panicked "all fmod events begin with event:/"
    ∧ AudioEngine.play_event true 0 0 0 0 "oops" =
      .panicked "all fmod events begin with event:/"
    ∧ EventInstance.set_pitch true 0 (-1) =
      .panicked "assertion failed: pitch >= 0.0" :=
  ⟨c8_debug_only_assertions.1 0 0 "oops" (by decide),
   c8_debug_only_assertions.2.1 0 0 0 0 "oops" (by decide),
   c8_debug_only_assertions.2.2.2.2.2.2.1 0 (-1) (by decide)⟩

/-! Constant-table comparison (C5).  The native binding (libfmod) and the
middleware's published headers are not part of src/; the `native*`
definitions below are modelled from the spec's constant-table contract
(§4.4/§6: the redeclared tables "must match the external middleware's
published numeric assignments exactly") by transcribing the middleware's
published assignments for the same names.  The `wasm*` tables transcribe
the constants redeclared in `wasmfmod.rs`. -/

/-- Modelled from the spec: the middleware's published `FMOD_RESULT`
value for each status kind the binding redeclares (`FMOD_OK` through
`FMOD_ERR_TOOMANYSAMPLES`, 0..=81 in declaration order); `none` for
`ErrUnknown`, the catch-all the binding invented, which has no published
counterpart. -/
def nativeResultCode : FMODResult → Option Int
  | .Ok => some 0
  | .ErrBadCommand => some 1
  | .ErrChannelAlloc => some 2
  | .ErrChannelStolen => some 3
  | .ErrDMA => some 4
  | .ErrDSPConnection => some 5
  | .ErrDSPDontProcess => some 6
  | .ErrDSPFormat => some 7
  | .ErrDSPInUse => some 8
  | .ErrDSPNotFound => some 9
  | .ErrDSPPReserved => some 10
  | .ErrDSPSilence => some 11
  | .ErrDSPTtype => some 12
  | .ErrFileBad => some 13
  | .ErrFileCouldNotSeek => some 14
  | .ErrFileDiskEjected => some 15
  | .ErrFileEOF => some 16
  | .ErrFileEndOfData => some 17
  | .ErrFileNotFound => some 18
  | .ErrFormat => some 19
  | .ErrHeaderMismatch => some 20
  | .ErrHTTP => some 21
  | .ErrHTTPAccess => some 22
  | .ErrHTTPProxyAuth => some 23
  | .ErrHTTPServerError => some 24
  | .ErrHTTPTimeout => some 25
  | .ErrInitialization => some 26
  | .ErrInitialized => some 27
  | .ErrInternal => some 28
  | .ErrInvalidFloat => some 29
  | .ErrInvalidHandle => some 30
  | .ErrInvalidParam => some 31
  | .ErrInvalidPosition => some 32
  | .ErrInvalidSpeaker => some 33
  | .ErrInvalidSyncPOINT => some 34
  | .ErrInvalidThread => some 35
  | .ErrInvalidVector => some 36
  | .ErrMaxAudible => some 37
  | .ErrMemory => some 38
  | .ErrMemoryCantPoint => some 39
  | .ErrNeeds3D => some 40
  | .ErrNeedsHardware => some 41
  | .ErrNetConnect => some 42
  | .ErrNetSocketError => some 43
  | .ErrNetURL => some 44
  | .ErrNetWouldBlock => some 45
  | .ErrNotReady => some 46
  | .ErrOutputAllocated => some 47
  | .ErrOutputCreateBuffer => some 48
  | .ErrOutputDriverCall => some 49
  | .ErrOutputFormat => some 50
  | .ErrOutputInit => some 51
  | .ErrOutputNoDrivers => some 52
  | .ErrPlugin => some 53
  | .ErrPluginMissing => some 54
  | .ErrPluginResource => some 55
  | .ErrPluginVersion => some 56
  | .ErrRecord => some 57
  | .ErrReverbChannelGroup => some 58
  | .ErrReverbInstance => some 59
  | .ErrSubsounds => some 60
  | .ErrSubsoundAllocated => some 61
  | .ErrSubsoundCantMove => some 62
  | .ErrTagNotFound => some 63
  | .ErrTooManyChannels => some 64
  | .ErrTruncated => some 65
  | .ErrUnimplemented => some 66
  | .ErrUnitialized => some 67
  | .ErrUnsupported => some 68
  | .ErrVersion => some 69
  | .ErrEventAlreadyLoaded => some 70
  | .ErrEventLiveUpdateBusy => some 71
  | .ErrEventLiveUpdateMismatch => some 72
  | .ErrEventLiveUpdateTimeout => some 73
  | .ErrEventNotFound => some 74
  | .ErrStudioUnitialized => some 75
  | .ErrStudioNotLoaded => some 76
  | .ErrInvalidString => some 77
  | .ErrAlreadyLocked => some 78
  | .ErrNotLocked => some 79
  | .ErrRecordDisconnected => some 80
  | .ErrTooManySamples => some 81
  | .ErrUnknown => none

/-- The Init bit-flag table redeclared in `wasmfmod.rs`, by flag name. -/
def wasmInitFlagTable : List (String × Nat) :=
  [("NORMAL", Init_NORMAL),
   ("STREAM_FROM_UPDATE", Init_STREAM_FROM_UPDATE),
   ("MIX_FROM_UPDATE", Init_MIX_FROM_UPDATE),
   ("RIGHTHANDED_3D", Init_RIGHTHANDED_3D),
   ("CLIP_OUTPUT", Init_CLIP_OUTPUT),
   ("CHANNEL_LOWPASS", Init_CHANNEL_LOWPASS),
   ("CHANNEL_DISTANCEFILTER", Init_CHANNEL_DISTANCEFILTER),
   ("PROFILE_ENABLE", Init_PROFILE_ENABLE),
   ("VOL0_BECOMES_VIRTUAL", Init_VOL0_BECOMES_VIRTUAL),
   ("GEOMETRY_USECLOSEST", Init_GEOMETRY_USECLOSEST),
   ("PREFER_DOLBY_DOWNMIX", Init_PREFER_DOLBY_DOWNMIX),
   ("THREAD_UNSAFE", Init_THREAD_UNSAFE),
   ("PROFILE_METER_ALL", Init_PROFILE_METER_ALL),
   ("MEMORY_TRACKING", Init_MEMORY_TRACKING)]

/-- Modelled from the spec: the middleware's published `FMOD_INIT_*` flag
values for the same names. -/
def nativeInitFlagTable : List (String × Nat) :=
  [("NORMAL", 0x00000000),
   ("STREAM_FROM_UPDATE", 0x00000001),
   ("MIX_FROM_UPDATE", 0x00000002),
   ("RIGHTHANDED_3D", 0x00000004),
   ("CLIP_OUTPUT", 0x00000008),
   ("CHANNEL_LOWPASS", 0x00000100),
   ("CHANNEL_DISTANCEFILTER", 0x00000200),
   ("PROFILE_ENABLE", 0x00010000),
   ("VOL0_BECOMES_VIRTUAL", 0x00020000),
   ("GEOMETRY_USECLOSEST", 0x00040000),
   ("PREFER_DOLBY_DOWNMIX", 0x00080000),
   ("THREAD_UNSAFE", 0x00100000),
   ("PROFILE_METER_ALL", 0x00200000),
   ("MEMORY_TRACKING", 0x00400000)]

/-- The LoadBank bit-flag table redeclared in `wasmfmod.rs`. -/
def wasmLoadBankFlagTable : List (String × Nat) :=
  [("NORMAL", LoadBank_NORMAL),
   ("NONBLOCKING", LoadBank_NONBLOCKING),
   ("DECOMPRESS_SAMPLES", LoadBank_DECOMPRESS_SAMPLES),
   ("UNENCRYPTED", LoadBank_UNENCRYPTED)]

/-- Modelled from the spec: the middleware's published
`FMOD_STUDIO_LOAD_BANK_*` flag values for the same names. -/
def nativeLoadBankFlagTable : List (String × Nat) :=
  [("NORMAL", 0x00000000),
   ("NONBLOCKING", 0x00000001),
   ("DECOMPRESS_SAMPLES", 0x00000002),
   ("UNENCRYPTED", 0x00000004)]

/-- The StudioInit bit-flag table redeclared in `wasmfmod.rs`. -/
def wasmStudioInitFlagTable : List (String × Nat) :=
  [("NORMAL", StudioInit_NORMAL),
   ("LIVEUPDATE", StudioInit_LIVEUPDATE),
   ("ALLOW_MISSING_PLUGINS", StudioInit_ALLOW_MISSING_PLUGINS),
   ("SYNCHRONOUS_UPDATE", StudioInit_SYNCHRONOUS_UPDATE),
   ("DEFERRED_CALLBACKS", StudioInit_DEFERRED_CALLBACKS),
   ("LOAD_FROM_UPDATE", StudioInit_LOAD_FROM_UPDATE),
   ("MEMORY_TRACKING", StudioInit_MEMORY_TRACKING)]

/-- Modelled from the spec: the middleware's published
`FMOD_STUDIO_INIT_*` flag values for the same names. -/
def nativeStudioInitFlagTable : List (String × Nat) :=
  [("NORMAL", 0x00000000),
   ("LIVEUPDATE", 0x00000001),
   ("ALLOW_MISSING_PLUGINS", 0x00000002),
   ("SYNCHRONOUS_UPDATE", 0x00000004),
   ("DEFERRED_CALLBACKS", 0x00000008),
   ("LOAD_FROM_UPDATE", 0x00000010),
   ("MEMORY_TRACKING", 0x00000020)]

/-- Modelled from the spec: the middleware's published
`FMOD_STUDIO_PLAYBACK_*` state values for the same names. -/
def nativePlaybackStateCode : PlaybackState → Int
  | .Playing => 0
  | .Sustaining => 1
  | .Stopped => 2
  | .Starting => 3
  | .Stopping => 4

/-- Modelled from the spec: the middleware's published
`FMOD_STUDIO_EVENT_PROPERTY_*` index values for the same names. -/
def nativeEventPropertyCode : EventProperty → Int
  | .ChannelPriority => 0
  | .ScheduleDelay => 1
  | .ScheduleLookahead => 2
  | .MinimumDistance => 3
  | .MaximumDistance => 4
  | .Cooldown => 5
  | .Max => 6

/-- Modelled from the spec: the middleware's published
`FMOD_STUDIO_STOP_*` mode values for the same names. -/
def nativeStopModeCode : StopMode → Int
  | .AllowFadeout => 0
  | .Immediate => 1

/-- C5: every constant table redeclared by the interop backend equals the
native middleware binding's published numeric assignments for the same
names: each of the 82 published status kinds carries its published code
(the invented `ErrUnknown` excepted), and the Init / LoadBank /
StudioInit bit-flag tables, the EventProperty indices, the StopMode
values and the PlaybackState values agree entry for entry. -/
theorem c5_constant_tables_match :
    (∀ r : FMODResult, r ≠ .ErrUnknown → nativeResultCode r = some r.code)
    ∧ wasmInitFlagTable = nativeInitFlagTable
    ∧ wasmLoadBankFlagTable = nativeLoadBankFlagTable
    ∧ wasmStudioInitFlagTable = nativeStudioInitFlagTable
    ∧ (∀ p : EventProperty, nativeEventPropertyCode p = p.code)
    ∧ (∀ m : StopMode, nativeStopModeCode m = m.code)
    ∧ (∀ st : PlaybackState, nativePlaybackStateCode st = st.code) := by
  refine ⟨?_, rfl, rfl, rfl, ?_, ?_, ?_⟩
  · intro r h
    cases r <;> first | rfl | exact absurd rfl h
  · intro p; cases p <;> rfl
  · intro m; cases m <;> rfl
  · intro st; cases st <;> rfl

/-- C5 witness: the theorem applied at `ErrTooManySamples` (code 81) and
the remaining table equalities. -/
theorem c5_constant_tables_match_witness :
    nativeResultCode .ErrTooManySamples =
      some (FMODResult.code .ErrTooManySamples)
    ∧ wasmInitFlagTable = nativeInitFlagTable
    ∧ nativeEventPropertyCode .Max = EventProperty.code .Max :=
  ⟨c5_constant_tables_match.1 .ErrTooManySamples (by decide),
   c5_constant_tables_match.2.1,
   c5_constant_tables_match.2.2.2.2.1 .Max⟩

end FmodBed
